import Mathlib

/-!
# Chronos-Core: formal model of the conversion pipeline

A shallow embedding of the three source modules of the repository:

* `cyclic_math.py` — the sexagenary `CyclicVariable` value type.  The module
  contains two successive class definitions of the same name; the second one
  (plain `index % 60` state, `__add__`/`__sub__`, string lookups, no custom
  `__eq__`/`__hash__`) is the one that is effective at runtime, and is the one
  embedded as the structure `CyclicVariable` below.  The first (shadowed)
  definition additionally carries the relational predicates `is_combining` and
  `is_clashing`; those two methods are embedded as well, as functions on the
  same value type, since their bodies only read `index % 12`.
* `astronomy.py` — `calculate_equation_of_time` and `get_true_solar_time`.
  Python `float` arithmetic and `math.sin`/`math.cos` are idealised as exact
  real arithmetic; `timedelta(minutes=x)` converts its float argument to a
  whole number of microseconds (Python rounds to the nearest microsecond; we
  model that rounding with `round`).
* `converter.py` — `TemporalCoordinateEngine.get_coordinates`.

Python `datetime` values are embedded as the structure `PyDateTime`: the civil
fields the constructor stores, plus an optional fixed UTC offset in minutes
(`none` models a naive datetime).  Python's `%` and `//` on integers are floor
operations, which for the positive divisors used here coincide with Lean's
`%` and `/` on `ℤ`.  A naive datetime is identified with its microsecond count
since 1900-01-01T00:00:00 (the engine's `REF_DATE`); `datetime` arithmetic
(`+ timedelta`, subtraction, the `hour` field of a computed instant) is exact
integer arithmetic on that count, exactly as in CPython, with the calendar
conversions given by the standard proleptic-Gregorian algorithms
(`daysFromCivil` / `civilFromDays`).
-/

/-! ## Calendar arithmetic (proleptic Gregorian, as used by Python `datetime`) -/

/-- Days from 1970-01-01 to civil date `(y, m, d)` in the proleptic Gregorian
calendar (the count `datetime.toordinal` is an offset of). -/
def daysFromCivil (y m d : ℤ) : ℤ :=
  let y2 := if m ≤ 2 then y - 1 else y
  let era := y2 / 400
  let yoe := y2 - era * 400
  let mp := (m + 9) % 12
  let doy := (153 * mp + 2) / 5 + d - 1
  let doe := yoe * 365 + yoe / 4 - yoe / 100 + doy
  era * 146097 + doe - 719468

/-- Civil date `(y, m, d)` of the day `z` days after 1970-01-01 (inverse of
`daysFromCivil`; the standard algorithm). -/
def civilFromDays (z0 : ℤ) : ℤ × ℤ × ℤ :=
  let z := z0 + 719468
  let era := z / 146097
  let doe := z - era * 146097
  let yoe := (doe - doe / 1460 + doe / 36524 - doe / 146096) / 365
  let y := yoe + era * 400
  let doy := doe - (365 * yoe + yoe / 4 - yoe / 100)
  let mp := (5 * doy + 2) / 153
  let d := doy - (153 * mp + 2) / 5 + 1
  let m := mp + if mp < 10 then 3 else -9
  (if m ≤ 2 then y + 1 else y, m, d)

/-- `timetuple().tm_yday`: 1-based day of the year of a civil date. -/
def dayOfYear (y m d : ℤ) : ℤ :=
  daysFromCivil y m d - daysFromCivil y 1 1 + 1

/-- Microseconds in one day. -/
def dayMicro : ℤ := 86400000000

/-- Days from 1970-01-01 to the engine's `REF_DATE`, `datetime(1900, 1, 1)`. -/
def epochDays : ℤ := daysFromCivil 1900 1 1

/-! ## Python datetime values -/

/-- A Python `datetime`: the stored civil fields plus an optional fixed UTC
offset in minutes (`none` = naive datetime, `some 0` = `timezone.utc`). -/
structure PyDateTime where
  year : ℤ
  month : ℤ
  day : ℤ
  hour : ℤ
  minute : ℤ
  second : ℤ
  microsecond : ℤ
  tzOffsetMinutes : Option ℤ
deriving DecidableEq

/-- The ranges Python's `datetime` constructor enforces on its fields. -/
def leapYear (y : ℤ) : Bool := (y % 4 == 0 && y % 100 != 0) || y % 400 == 0

/-- Length of month `m` of year `y`. -/
def daysInMonth (y m : ℤ) : ℤ :=
  if m = 2 then (if leapYear y then 29 else 28)
  else if m = 4 ∨ m = 6 ∨ m = 9 ∨ m = 11 then 30 else 31

/-- A `PyDateTime` whose fields lie in the ranges Python's `datetime`
constructor enforces (every runtime `datetime` object satisfies this). -/
def ValidDT (dt : PyDateTime) : Prop :=
  1 ≤ dt.year ∧ dt.year ≤ 9999 ∧
  1 ≤ dt.month ∧ dt.month ≤ 12 ∧
  1 ≤ dt.day ∧ dt.day ≤ daysInMonth dt.year dt.month ∧
  0 ≤ dt.hour ∧ dt.hour ≤ 23 ∧
  0 ≤ dt.minute ∧ dt.minute ≤ 59 ∧
  0 ≤ dt.second ∧ dt.second ≤ 59 ∧
  0 ≤ dt.microsecond ∧ dt.microsecond ≤ 999999

instance (dt : PyDateTime) : Decidable (ValidDT dt) := by
  unfold ValidDT; infer_instance

/-- Microseconds from `REF_DATE` (1900-01-01T00:00:00, naive) to the civil
fields of `dt`, ignoring any timezone. -/
def toMicroNaive (dt : PyDateTime) : ℤ :=
  (daysFromCivil dt.year dt.month dt.day - epochDays) * dayMicro
  + dt.hour * 3600000000 + dt.minute * 60000000 + dt.second * 1000000
  + dt.microsecond

/-- Microseconds from 1900-01-01T00:00:00 UTC to the instant denoted by `dt`
(`_to_utc`: a naive datetime is taken to be already UTC; an offset-bearing one
is shifted by its offset). -/
def utcMicro (dt : PyDateTime) : ℤ :=
  toMicroNaive dt - (dt.tzOffsetMinutes.getD 0) * 60000000

/-- The civil date of `_to_utc(dt)`: for a naive input `astimezone` is not
called and the stored fields are used unchanged; for an aware input the fields
are those of the UTC instant. -/
def utcCivilDate (dt : PyDateTime) : ℤ × ℤ × ℤ :=
  match dt.tzOffsetMinutes with
  | none => (dt.year, dt.month, dt.day)
  | some _ => civilFromDays (utcMicro dt / dayMicro + epochDays)

/-! ## `cyclic_math.CyclicVariable` (the effective, second definition) -/

/-- The sexagenary value: `__init__` stores `index % 60`. -/
structure CyclicVariable where
  index : ℤ
deriving DecidableEq

/-- `CyclicVariable(n)`: the constructor normalises with Python's floor
modulo, `self.index = index % 60`. -/
def CyclicVariable.ofInt (n : ℤ) : CyclicVariable := ⟨n % 60⟩

/-- `__add__` with an `int` operand: `CyclicVariable(self.index + other)`. -/
def CyclicVariable.add (c : CyclicVariable) (k : ℤ) : CyclicVariable :=
  CyclicVariable.ofInt (c.index + k)

/-- `__sub__` with a `CyclicVariable` operand: the forward cyclic distance
`(self.index - other.index) % 60`. -/
def CyclicVariable.subCoord (a b : CyclicVariable) : ℤ :=
  (a.index - b.index) % 60

/-- `__sub__` with an `int` operand: `CyclicVariable(self.index - other)`. -/
def CyclicVariable.subInt (c : CyclicVariable) (k : ℤ) : CyclicVariable :=
  CyclicVariable.ofInt (c.index - k)

/-- The `STEMS` table. -/
def STEMS : List String :=
  ["Jia", "Yi", "Bing", "Ding", "Wu", "Ji", "Geng", "Xin", "Ren", "Gui"]

/-- The `BRANCHES` table. -/
def BRANCHES : List String :=
  ["Zi", "Chou", "Yin", "Mao", "Chen", "Si", "Wu", "Wei", "Shen", "You", "Xu", "Hai"]

/-- The `stem` property: `STEMS[self.index % 10]`. -/
def CyclicVariable.stem (c : CyclicVariable) : String :=
  STEMS.getD (c.index % 10).toNat ""

/-- The `branch` property: `BRANCHES[self.index % 12]`. -/
def CyclicVariable.branch (c : CyclicVariable) : String :=
  BRANCHES.getD (c.index % 12).toNat ""

/-- The element table of the `element` property. -/
def ELEMENTS : List String :=
  ["Wood", "Wood", "Fire", "Fire", "Earth", "Earth", "Metal", "Metal", "Water", "Water"]

/-- The `element` property: `elements[self.index % 10]`. -/
def CyclicVariable.element (c : CyclicVariable) : String :=
  ELEMENTS.getD (c.index % 10).toNat ""

/-- `branch_index` of the first (shadowed) class: `self._index % 12`; both
class definitions normalise the stored index the same way, so it is a function
of the same value type. -/
def CyclicVariable.branch_index (c : CyclicVariable) : ℤ := c.index % 12

/-- `is_combining` (first class definition in `cyclic_math.py`):
`(self.branch_index + other.branch_index) % 12 == 1`. -/
def CyclicVariable.is_combining (a b : CyclicVariable) : Bool :=
  (a.branch_index + b.branch_index) % 12 == 1

/-- `is_clashing` (first class definition in `cyclic_math.py`):
`(self.branch_index - other.branch_index) % 12 == 6`. -/
def CyclicVariable.is_clashing (a b : CyclicVariable) : Bool :=
  (a.branch_index - b.branch_index) % 12 == 6

/-! ### Python default equality and hashing

The effective `CyclicVariable` class defines neither `__eq__` nor `__hash__`,
so Python falls back to `object` semantics: `==` compares object identity and
the hash is derived injectively from the object id.  We model a heap object as
an allocation id paired with its value; distinct constructor calls yield
distinct ids. -/

/-- `==` under the default (identity) semantics of the effective class. -/
def pyObjEq (a b : ℕ × CyclicVariable) : Bool := a.1 == b.1

/-- `hash` under the default (id-derived, injective-in-id) semantics. -/
def pyObjHash (a : ℕ × CyclicVariable) : ℕ := a.1

/-! ## `astronomy.py` -/

/-- Errors distinguished by the spec that a call in this pipeline can raise. -/
inductive PyError where
  | typeError
  | invalidArgument
deriving DecidableEq

/-- `calculate_equation_of_time(day_of_year)`:
`B = 2π(d − 81)/365`, `E = 9.87 sin 2B − 7.53 cos B − 1.5 sin B` (minutes).
The Python function performs no range check on its argument. -/
noncomputable def calculate_equation_of_time (day_of_year : ℤ) : ℝ :=
  9.87 * Real.sin (2 * (2 * Real.pi * ((day_of_year : ℝ) - 81) / 365))
    - 7.53 * Real.cos (2 * Real.pi * ((day_of_year : ℝ) - 81) / 365)
    - 1.5 * Real.sin (2 * Real.pi * ((day_of_year : ℝ) - 81) / 365)

/-- A call to `calculate_equation_of_time` viewed as a fallible Python call:
the body contains no `raise` and no validation, so every call returns
normally with the formula's value. -/
noncomputable def eotCall (day_of_year : ℤ) : Except PyError ℝ :=
  Except.ok (calculate_equation_of_time day_of_year)

/-- `get_true_solar_time(dt, longitude)` as the microsecond count (since
1900-01-01T00:00:00, naive — `tzinfo` is stripped from the result) of the
returned solar datetime: UTC instant plus
`timedelta(minutes = longitude * 4 + eot(day_of_year))`, the float minute
count being converted by `timedelta` to a whole number of microseconds. -/
noncomputable def get_true_solar_time (dt : PyDateTime) (longitude : ℝ) : ℤ :=
  utcMicro dt +
    round ((longitude * 4 +
      calculate_equation_of_time
        (dayOfYear (utcCivilDate dt).1 (utcCivilDate dt).2.1 (utcCivilDate dt).2.2))
      * 60000000)

/-! ## `converter.py` -/

/-- `REF_DAY_IDX`: 1900-01-01 is declared a Jia-Xu (index 10) day. -/
def REF_DAY_IDX : ℤ := 10

/-- The four pillars returned by `get_coordinates` (the `index` data of the
`coordinates` part of the result; stem/branch/element strings are recomputed
from `index` by `to_json`). -/
structure Pillars where
  year : CyclicVariable
  month : CyclicVariable
  day : CyclicVariable
  hour : CyclicVariable
deriving DecidableEq

/-- `delta.days` of `solar_dt - REF_DATE`, for a solar instant given as
microseconds since `REF_DATE`: Python's `timedelta` normalises with floor
division. -/
def daysSinceRef (s : ℤ) : ℤ := s / dayMicro

/-- The `hour` field of the naive datetime whose microsecond count since
`REF_DATE` is `s`. -/
def hourOfMicro (s : ℤ) : ℤ := s % dayMicro / 3600000000

/-- `solar_dt.hour` in the two modes: in precise mode `solar_dt` is the
corrected instant returned by `get_true_solar_time`; otherwise it is `dt`
itself and `.hour` reads the stored field. -/
noncomputable def solarHourOf (dt : PyDateTime) (longitude : ℝ) (pm : Bool) : ℤ :=
  if pm then hourOfMicro (get_true_solar_time dt longitude) else dt.hour

/-- Lines 42-63 of `converter.py`, given the day offset and the solar hour:
day pillar `(10 + days_passed) % 60`; hour pillar
`((day_idx % 10 % 5 * 2) * 10 + (hour + 1) // 2) % 60`; year pillar
`(dt.year - 4) % 60`; month pillar `CyclicVariable(dt.month + 12)` — the last
two from the raw input `dt`, not from the solar instant. -/
def mkPillars (dt : PyDateTime) (days_passed hourOfSolar : ℤ) : Pillars :=
  let day_idx := (REF_DAY_IDX + days_passed) % 60
  let day_pillar := CyclicVariable.ofInt day_idx
  let hour_bracket := (hourOfSolar + 1) / 2
  let start_stem_idx := day_pillar.index % 10 % 5 * 2
  let hour_idx := (start_stem_idx * 10 + hour_bracket) % 60
  { year := CyclicVariable.ofInt ((dt.year - 4) % 60)
    month := CyclicVariable.ofInt (dt.month + 12)
    day := day_pillar
    hour := CyclicVariable.ofInt hour_idx }

deriving instance DecidableEq for Except

/-- `TemporalCoordinateEngine.get_coordinates(dt, longitude)` with
`precise_mode = pm`.  In precise mode the solar instant is
`get_true_solar_time(dt, longitude)` (a naive datetime), and
`solar_dt - REF_DATE` is well defined.  Otherwise `solar_dt = dt`, and if `dt`
carries a timezone the subtraction `solar_dt - REF_DATE` of an aware and a
naive datetime raises `TypeError`. -/
noncomputable def get_coordinates (dt : PyDateTime) (longitude : ℝ) (pm : Bool) :
    Except PyError Pillars :=
  if pm then
    Except.ok (mkPillars dt (daysSinceRef (get_true_solar_time dt longitude))
      (solarHourOf dt longitude true))
  else
    match dt.tzOffsetMinutes with
    | some _ => Except.error PyError.typeError
    | none => Except.ok (mkPillars dt (daysSinceRef (toMicroNaive dt))
        (solarHourOf dt longitude false))

/-- Modelled from the spec: the failure semantics §7 demands that a
day-of-year outside `[1, 366]` be rejected with `InvalidArgument`; the in-range
behaviour is the source formula.  (The source `calculate_equation_of_time`
itself contains no such check.) -/
noncomputable def eotSpecChecked (day_of_year : ℤ) : Except PyError ℝ :=
  if 1 ≤ day_of_year ∧ day_of_year ≤ 366 then
    Except.ok (calculate_equation_of_time day_of_year)
  else
    Except.error PyError.invalidArgument

/-! ## Concrete inputs used by the claim theorems -/

/-- `1900-01-01T00:00:00Z` (offset-bearing, offset 0). -/
def refDT : PyDateTime := ⟨1900, 1, 1, 0, 0, 0, 0, some 0⟩

/-- `1900-01-04T12:00:00` (naive). -/
def noonJan4 : PyDateTime := ⟨1900, 1, 4, 12, 0, 0, 0, none⟩

/-- `2020-01-01T00:30:00+13:00`. -/
def aware13 : PyDateTime := ⟨2020, 1, 1, 0, 30, 0, 0, some 780⟩

/-- `2019-12-31T21:30:00+10:00` — the same instant as `aware13`. -/
def aware10 : PyDateTime := ⟨2019, 12, 31, 21, 30, 0, 0, some 600⟩

/-- `2019-12-31T23:59:00` (naive). -/
def lateDec2019 : PyDateTime := ⟨2019, 12, 31, 23, 59, 0, 0, none⟩

/-- `2020-01-01T00:00:00` (naive). -/
def jan2020 : PyDateTime := ⟨2020, 1, 1, 0, 0, 0, 0, none⟩

/-- `2020-03-01T00:00:00` (naive). -/
def mar2020 : PyDateTime := ⟨2020, 3, 1, 0, 0, 0, 0, none⟩

/-! ## Helper lemmas -/

theorem mkPillars_day (dt : PyDateTime) (dp h : ℤ) :
    (mkPillars dt dp h).day = CyclicVariable.ofInt ((REF_DAY_IDX + dp) % 60) := rfl

theorem mkPillars_hour (dt : PyDateTime) (dp h : ℤ) :
    (mkPillars dt dp h).hour =
      CyclicVariable.ofInt
        (((REF_DAY_IDX + dp) % 60 % 60 % 10 % 5 * 2 * 10 + (h + 1) / 2) % 60) := by
  rfl

theorem mkPillars_year (dt : PyDateTime) (dp h : ℤ) :
    (mkPillars dt dp h).year = CyclicVariable.ofInt ((dt.year - 4) % 60) := rfl

theorem mkPillars_month (dt : PyDateTime) (dp h : ℤ) :
    (mkPillars dt dp h).month = CyclicVariable.ofInt (dt.month + 12) := rfl

theorem get_coordinates_precise (dt : PyDateTime) (lon : ℝ) :
    get_coordinates dt lon true =
      Except.ok (mkPillars dt (daysSinceRef (get_true_solar_time dt lon))
        (solarHourOf dt lon true)) := by
  simp [get_coordinates]

theorem get_coordinates_basic (dt : PyDateTime) (lon : ℝ) (h : dt.tzOffsetMinutes = none) :
    get_coordinates dt lon false =
      Except.ok (mkPillars dt (daysSinceRef (toMicroNaive dt)) (solarHourOf dt lon false)) := by
  simp [get_coordinates, h]

theorem round_bounds (x : ℝ) : x - 1 / 2 ≤ (round x : ℝ) ∧ (round x : ℝ) ≤ x + 1 / 2 := by
  have h := abs_sub_round x
  rw [abs_le] at h
  constructor <;> linarith [h.1, h.2]

theorem eot_range (d : ℤ) :
    -18.9 ≤ calculate_equation_of_time d ∧ calculate_equation_of_time d ≤ 18.9 := by
  unfold calculate_equation_of_time
  constructor <;>
    nlinarith [Real.neg_one_le_sin (2 * (2 * Real.pi * ((d : ℝ) - 81) / 365)),
      Real.sin_le_one (2 * (2 * Real.pi * ((d : ℝ) - 81) / 365)),
      Real.neg_one_le_cos (2 * Real.pi * ((d : ℝ) - 81) / 365),
      Real.cos_le_one (2 * Real.pi * ((d : ℝ) - 81) / 365),
      Real.neg_one_le_sin (2 * Real.pi * ((d : ℝ) - 81) / 365),
      Real.sin_le_one (2 * Real.pi * ((d : ℝ) - 81) / 365)]

theorem eot_periodic_aux (d : ℤ) :
    calculate_equation_of_time (d + 365) = calculate_equation_of_time d := by
  unfold calculate_equation_of_time
  have h : 2 * Real.pi * (((d + 365 : ℤ) : ℝ) - 81) / 365
      = 2 * Real.pi * ((d : ℝ) - 81) / 365 + 2 * Real.pi := by push_cast; ring
  rw [h, Real.sin_add_two_pi, Real.cos_add_two_pi]
  have h2 : 2 * (2 * Real.pi * ((d : ℝ) - 81) / 365 + 2 * Real.pi)
      = 2 * (2 * Real.pi * ((d : ℝ) - 81) / 365) + 2 * Real.pi + 2 * Real.pi := by ring
  rw [h2, Real.sin_add_two_pi, Real.sin_add_two_pi]

theorem eot_day_one_neg : calculate_equation_of_time 1 ≤ -2 := by
  unfold calculate_equation_of_time
  have hpi1 : (3.141592 : ℝ) < Real.pi := Real.pi_gt_d6
  have hpi2 : Real.pi < 3.15 := Real.pi_lt_d2
  have hB : 2 * (2 * Real.pi * (((1 : ℤ) : ℝ) - 81) / 365)
      = -(Real.pi - 45 * Real.pi / 365) := by push_cast; ring
  have hBc : 2 * Real.pi * (((1 : ℤ) : ℝ) - 81) / 365 = -(160 * Real.pi / 365) := by
    push_cast; ring
  rw [hB, hBc, Real.sin_neg, Real.sin_pi_sub, Real.cos_neg, Real.sin_neg]
  have ha1 : (0.38731 : ℝ) < 45 * Real.pi / 365 := by linarith
  have ha2 : (45 : ℝ) * Real.pi / 365 < 0.3884 := by linarith
  have hsin : 45 * Real.pi / 365 - (45 * Real.pi / 365) ^ 3 / 4 < Real.sin (45 * Real.pi / 365) :=
    Real.sin_gt_sub_cube (by linarith) (by linarith)
  have hcube : (45 * Real.pi / 365) ^ 3 < 0.3884 ^ 3 :=
    pow_lt_pow_left₀ ha2 (by positivity) (by norm_num)
  have hsa : (0.3726 : ℝ) < Real.sin (45 * Real.pi / 365) := by nlinarith
  have hcos : 0 ≤ Real.cos (160 * Real.pi / 365) := by
    apply Real.cos_nonneg_of_mem_Icc
    rw [Set.mem_Icc]
    constructor <;> nlinarith [Real.pi_pos]
  have hs2 : Real.sin (160 * Real.pi / 365) ≤ 1 := Real.sin_le_one _
  nlinarith

theorem solar_refDT_eq :
    get_true_solar_time refDT 0 = round (calculate_equation_of_time 1 * 60000000) := by
  unfold get_true_solar_time
  have h1 : utcCivilDate refDT = (1900, 1, 1) := by decide
  have h0 : utcMicro refDT = 0 := by decide
  rw [h1, h0]
  norm_num [show dayOfYear 1900 1 1 = 1 from by decide]

theorem solar_refDT_bounds :
    -86400000000 ≤ get_true_solar_time refDT 0 ∧ get_true_solar_time refDT 0 ≤ -1 := by
  rw [solar_refDT_eq]
  have he1 : calculate_equation_of_time 1 ≤ -2 := eot_day_one_neg
  have he2 : -18.9 ≤ calculate_equation_of_time 1 := (eot_range 1).1
  have hr := round_bounds (calculate_equation_of_time 1 * 60000000)
  have hu : ((round (calculate_equation_of_time 1 * 60000000) : ℤ) : ℝ) ≤ -1 := by
    nlinarith [hr.2]
  have hl : ((-86400000000 : ℤ) : ℝ)
      ≤ ((round (calculate_equation_of_time 1 * 60000000) : ℤ) : ℝ) := by
    push_cast
    nlinarith [hr.1]
  constructor
  · exact_mod_cast hl
  · exact_mod_cast hu

theorem solar_noon_eq :
    get_true_solar_time noonJan4 0 =
      302400000000 + round (calculate_equation_of_time 4 * 60000000) := by
  unfold get_true_solar_time
  have h1 : utcCivilDate noonJan4 = (1900, 1, 4) := by decide
  have h0 : utcMicro noonJan4 = 302400000000 := by decide
  rw [h1, h0]
  norm_num [show dayOfYear 1900 1 4 = 4 from by decide]

theorem solar_noon_bounds :
    301265999999 ≤ get_true_solar_time noonJan4 0 ∧
    get_true_solar_time noonJan4 0 ≤ 303534000001 := by
  rw [solar_noon_eq]
  have he := eot_range 4
  have hr := round_bounds (calculate_equation_of_time 4 * 60000000)
  have hu : ((round (calculate_equation_of_time 4 * 60000000) : ℤ) : ℝ) ≤ 1134000001 := by
    nlinarith [hr.2, he.2]
  have hl : ((-1134000001 : ℤ) : ℝ)
      ≤ ((round (calculate_equation_of_time 4 * 60000000) : ℤ) : ℝ) := by
    push_cast
    nlinarith [hr.1, he.1]
  have hu' : round (calculate_equation_of_time 4 * 60000000) ≤ 1134000001 := by exact_mod_cast hu
  have hl' : -1134000001 ≤ round (calculate_equation_of_time 4 * 60000000) := by exact_mod_cast hl
  omega

set_option maxHeartbeats 1000000 in
theorem six_pairs (x y : ℤ) (hx0 : 0 ≤ x) (hx : x < 12) (hy0 : 0 ≤ y) (hy : y < 12) :
    (x + y) % 12 = 1 ↔
      (x = 0 ∧ y = 1) ∨ (x = 1 ∧ y = 0) ∨ (x = 2 ∧ y = 11) ∨ (x = 11 ∧ y = 2) ∨
      (x = 3 ∧ y = 10) ∨ (x = 10 ∧ y = 3) ∨ (x = 4 ∧ y = 9) ∨ (x = 9 ∧ y = 4) ∨
      (x = 5 ∧ y = 8) ∨ (x = 8 ∧ y = 5) ∨ (x = 6 ∧ y = 7) ∨ (x = 7 ∧ y = 6) := by
  interval_cases x <;> interval_cases y <;> simp

/-! ## Claim theorems -/

/-- C1, counterexample: converting `1900-01-01T00:00:00Z` with longitude 0 in
the default (precise) mode yields a day pillar with index 9, not the claimed
index 10: the equation-of-time correction for day-of-year 1 is about −3.7
minutes, which moves the solar instant to 1899-12-31 and makes
`(solar_dt - REF_DATE).days` equal −1. -/
theorem C1_day_pillar_is_9_not_10 :
    (get_coordinates refDT 0 true).map (fun p => p.day.index) = Except.ok 9 ∧
    (Except.ok (9 : ℤ) : Except PyError ℤ) ≠ Except.ok 10 := by
  have hb := solar_refDT_bounds
  have hd : daysSinceRef (get_true_solar_time refDT 0) = -1 := by
    unfold daysSinceRef dayMicro
    omega
  constructor
  · rw [get_coordinates_precise]
    simp [Except.map, mkPillars_day, hd, CyclicVariable.ofInt, REF_DAY_IDX]
  · simp

/-- C1, amended: for the civil timestamp `1900-01-01T00:00:00Z` with longitude
0 and the default precision mode, `get_coordinates` returns a day pillar whose
index is 9 (stem "Gui", branch "You"): the solar-time correction (equation of
time ≈ −3.7 minutes at day-of-year 1) places the solar instant one calendar
day before the 1900-01-01 reference epoch. -/
theorem C1_amended_day_pillar :
    (get_coordinates refDT 0 true).map (fun p => (p.day.index, p.day.stem, p.day.branch))
      = Except.ok (9, "Gui", "You") := by
  have hb := solar_refDT_bounds
  have hd : daysSinceRef (get_true_solar_time refDT 0) = -1 := by
    unfold daysSinceRef dayMicro
    omega
  rw [get_coordinates_precise]
  simp only [Except.map, mkPillars_day, hd]
  norm_num [REF_DAY_IDX]
  constructor <;> decide

/-- C2, counterexample: for `1900-01-04T12:00:00` (naive, longitude 0, precise
mode) the day pillar has index 13 (stem index 3) and the solar two-hour
bracket is 6, so the claim requires `hour.index % 10 = (3 * 2 + 6) % 10 = 2`;
but the code produces hour index 6, and `6 % 10 ≠ 2`. -/
theorem C2_hour_congruence_fails :
    (get_coordinates noonJan4 0 true).map (fun p => (p.day.index, p.hour.index))
      = Except.ok (13, 6) ∧
    (hourOfMicro (get_true_solar_time noonJan4 0) + 1) / 2 = 6 ∧
    ¬ ((6 : ℤ) % 10 = (13 % 10 * 2 + 6) % 10) := by
  have hb := solar_noon_bounds
  have hd : daysSinceRef (get_true_solar_time noonJan4 0) = 3 := by
    unfold daysSinceRef dayMicro
    omega
  have hh : 11 ≤ hourOfMicro (get_true_solar_time noonJan4 0) ∧
      hourOfMicro (get_true_solar_time noonJan4 0) ≤ 12 := by
    unfold hourOfMicro dayMicro
    omega
  have hbr : (hourOfMicro (get_true_solar_time noonJan4 0) + 1) / 2 = 6 := by omega
  refine ⟨?_, hbr, by decide⟩
  rw [get_coordinates_precise]
  have hsh : solarHourOf noonJan4 0 true = hourOfMicro (get_true_solar_time noonJan4 0) := by
    simp [solarHourOf]
  simp only [Except.map, mkPillars_day, mkPillars_hour, hd, hsh, hbr]
  norm_num [REF_DAY_IDX, CyclicVariable.ofInt]

/-- C2, amended: whenever `get_coordinates` returns a result, the hour pillar
index lies in `[0, 59]` and equals
`(dayIndex % 10 % 5 * 2 * 10 + (solarHour + 1) / 2) % 60`; consequently its
residue mod 10 equals `((solarHour + 1) / 2) % 10`.  The two congruences the
claim states (branch = bracket mod 12 and the five-rats stem rule) do not hold
in general. -/
theorem C2_amended_hour_formula (dt : PyDateTime) (lon : ℝ) (pm : Bool) (p : Pillars)
    (h : get_coordinates dt lon pm = Except.ok p) :
    0 ≤ p.hour.index ∧ p.hour.index ≤ 59 ∧
    p.hour.index = (p.day.index % 10 % 5 * 2 * 10 + (solarHourOf dt lon pm + 1) / 2) % 60 ∧
    p.hour.index % 10 = (solarHourOf dt lon pm + 1) / 2 % 10 := by
  have hp : ∃ dp, p = mkPillars dt dp (solarHourOf dt lon pm) := by
    cases pm with
    | true =>
      rw [get_coordinates_precise] at h
      exact ⟨_, (Except.ok.inj h).symm⟩
    | false =>
      cases htz : dt.tzOffsetMinutes with
      | some o => simp [get_coordinates, htz] at h
      | none =>
        rw [get_coordinates_basic dt lon htz] at h
        exact ⟨_, (Except.ok.inj h).symm⟩
  obtain ⟨dp, rfl⟩ := hp
  simp only [mkPillars_day, mkPillars_hour, CyclicVariable.ofInt]
  omega

/-- C2, witness for the amended theorem at `1900-01-04T12:00:00` (naive),
longitude 0, basic mode: the returned pillars are year 36, month 13, day 13,
hour 6, and the amended formula holds there. -/
theorem C2_amended_hour_formula_witness :
    0 ≤ (⟨⟨36⟩, ⟨13⟩, ⟨13⟩, ⟨6⟩⟩ : Pillars).hour.index ∧
    (⟨⟨36⟩, ⟨13⟩, ⟨13⟩, ⟨6⟩⟩ : Pillars).hour.index ≤ 59 ∧
    (⟨⟨36⟩, ⟨13⟩, ⟨13⟩, ⟨6⟩⟩ : Pillars).hour.index =
      ((⟨⟨36⟩, ⟨13⟩, ⟨13⟩, ⟨6⟩⟩ : Pillars).day.index % 10 % 5 * 2 * 10 +
        (solarHourOf noonJan4 0 false + 1) / 2) % 60 ∧
    (⟨⟨36⟩, ⟨13⟩, ⟨13⟩, ⟨6⟩⟩ : Pillars).hour.index % 10 =
      (solarHourOf noonJan4 0 false + 1) / 2 % 10 :=
  C2_amended_hour_formula noonJan4 0 false ⟨⟨36⟩, ⟨13⟩, ⟨13⟩, ⟨6⟩⟩ (by decide)

/-- C3: the code derives the year pillar as `(dt.year - 4) % 60`, a pure
Gregorian-calendar-year function.  Evaluated at the failing inputs: it changes
from 35 to 36 between `2019-12-31T23:59` and `2020-01-01T00:00` (a Gregorian
boundary with no Lichun in between), and it is the same value 36 at
`2020-01-01T00:00` and `2020-03-01T00:00`, which lie in the same Gregorian
year on opposite sides of Lichun (≈ 2020-02-04, ecliptic longitude 315°) and
which the claim therefore requires to receive different year pillars. -/
theorem C3_year_pillar_gregorian_eval :
    (get_coordinates lateDec2019 0 false).map (fun p => p.year.index) = Except.ok 35 ∧
    (get_coordinates jan2020 0 false).map (fun p => p.year.index) = Except.ok 36 ∧
    (get_coordinates mar2020 0 false).map (fun p => p.year.index) = Except.ok 36 := by
  refine ⟨?_, ?_, ?_⟩ <;> decide

/-- C4, counterexample: an offset-bearing timestamp
(`2020-01-01T00:30:00+13:00`) is not accepted in the basic (non-precise) mode:
`solar_dt - REF_DATE` subtracts a naive datetime from an aware one, a
`TypeError` in Python.  This refutes "accepts a timestamp both with and
without an explicit UTC offset in both precision modes without error". -/
theorem C4_aware_basic_mode_type_error :
    get_coordinates aware13 0 false = Except.error PyError.typeError := by
  decide

/-- C4, amended: (a) precise mode accepts every timestamp; (b) basic mode
accepts offset-less timestamps; (c) basic mode raises `TypeError` on an
offset-bearing timestamp; (d) in precise mode the day and hour pillars depend
on an offset-bearing timestamp only through its UTC instant (so two
offset-bearing spellings of the same instant get identical day and hour
pillars — the solar instant is UTC-normalized); (e) the year and month pillars
are always taken from the raw civil fields of the input, not from the UTC
normalization. -/
theorem C4_amended_acceptance (dt dtN dt2 : PyDateTime) (lon : ℝ) (o o2 : ℤ) :
    (∃ p, get_coordinates dt lon true = Except.ok p) ∧
    (dtN.tzOffsetMinutes = none → ∃ p, get_coordinates dtN lon false = Except.ok p) ∧
    (dt.tzOffsetMinutes = some o → get_coordinates dt lon false = Except.error PyError.typeError) ∧
    (dt.tzOffsetMinutes = some o → dt2.tzOffsetMinutes = some o2 → utcMicro dt = utcMicro dt2 →
      (get_coordinates dt lon true).map (fun p => (p.day, p.hour)) =
        (get_coordinates dt2 lon true).map (fun p => (p.day, p.hour))) ∧
    (get_coordinates dt lon true).map (fun p => (p.year.index, p.month.index)) =
      Except.ok ((dt.year - 4) % 60, (dt.month + 12) % 60) := by
  refine ⟨⟨_, get_coordinates_precise dt lon⟩, ?_, ?_, ?_, ?_⟩
  · intro hn
    exact ⟨_, get_coordinates_basic dtN lon hn⟩
  · intro ho
    simp [get_coordinates, ho]
  · intro ho ho2 hu
    have hc : utcCivilDate dt = utcCivilDate dt2 := by
      unfold utcCivilDate
      rw [ho, ho2, hu]
    have hst : get_true_solar_time dt lon = get_true_solar_time dt2 lon := by
      unfold get_true_solar_time
      rw [hc, hu]
    have hs1 : solarHourOf dt lon true = solarHourOf dt2 lon true := by
      simp [solarHourOf, hst]
    rw [get_coordinates_precise dt lon, get_coordinates_precise dt2 lon]
    simp only [Except.map, mkPillars_day, mkPillars_hour, hst, hs1]
  · rw [get_coordinates_precise dt lon]
    simp only [Except.map, mkPillars_year, mkPillars_month, CyclicVariable.ofInt,
      Except.ok.injEq, Prod.mk.injEq]
    exact ⟨by omega, trivial⟩

/-- C4, witness for the amended theorem: instantiated at
`aware13 = 2020-01-01T00:30:00+13:00`, `noonJan4 = 1900-01-04T12:00:00`
(naive) and `aware10 = 2019-12-31T21:30:00+10:00` (the same instant as
`aware13`), with longitude 0. -/
theorem C4_amended_acceptance_witness :
    (∃ p, get_coordinates aware13 0 true = Except.ok p) ∧
    (∃ p, get_coordinates noonJan4 0 false = Except.ok p) ∧
    get_coordinates aware13 0 false = Except.error PyError.typeError ∧
    (get_coordinates aware13 0 true).map (fun p => (p.day, p.hour)) =
      (get_coordinates aware10 0 true).map (fun p => (p.day, p.hour)) ∧
    (get_coordinates aware13 0 true).map (fun p => (p.year.index, p.month.index)) =
      Except.ok ((aware13.year - 4) % 60, (aware13.month + 12) % 60) := by
  obtain ⟨h1, h2, h3, h4, h5⟩ := C4_amended_acceptance aware13 noonJan4 aware10 0 780 600
  exact ⟨h1, h2 rfl, h3 rfl, h4 rfl rfl (by decide), h5⟩

/-- C5: the effective `CyclicVariable` class defines neither `__eq__` nor
`__hash__`, so Python compares identity and hashes by id.  Evaluated at the
failing input: the objects `CyclicVariable(5)` (allocation id 0) and
`CyclicVariable(65)` (allocation id 1) are built from integers congruent
mod 60 and have equal normalized `index`, yet they compare unequal and hash
differently — the claimed structural equality/hashing is absent from the
code. -/
theorem C5_default_identity_eq_eval :
    pyObjEq (0, CyclicVariable.ofInt 5) (1, CyclicVariable.ofInt 65) = false ∧
    pyObjHash (0, CyclicVariable.ofInt 5) ≠ pyObjHash (1, CyclicVariable.ofInt 65) ∧
    (CyclicVariable.ofInt 5).index = (CyclicVariable.ofInt 65).index := by
  decide

/-- C6: for every pair of (constructed) cyclic coordinates `a = ofInt m` and
`b = ofInt n`, `a - b` is an integer in `[0, 59]` (the forward cyclic
distance) and the round-trip law `b.add(a.subtract(b)) = a` holds, equality
being equality of the immutable coordinate value (its normalized index). -/
theorem C6_subtract_roundtrip (m n : ℤ) :
    0 ≤ (CyclicVariable.ofInt m).subCoord (CyclicVariable.ofInt n) ∧
    (CyclicVariable.ofInt m).subCoord (CyclicVariable.ofInt n) ≤ 59 ∧
    (CyclicVariable.ofInt n).add ((CyclicVariable.ofInt m).subCoord (CyclicVariable.ofInt n))
      = CyclicVariable.ofInt m := by
  simp only [CyclicVariable.ofInt, CyclicVariable.subCoord, CyclicVariable.add,
    CyclicVariable.mk.injEq]
  refine ⟨?_, ?_, ?_⟩ <;> omega

/-- C7: construction from any integer `n` normalizes the index to
`((n mod 60) + 60) mod 60 ∈ [0, 59]`, and both integer-operand arithmetic
operations (`add`, `subtract`) produce a coordinate whose index is again the
unique representative in `[0, 59]` of the shifted value. -/
theorem C7_normalization_invariant (n k : ℤ) :
    (CyclicVariable.ofInt n).index = (n % 60 + 60) % 60 ∧
    (0 ≤ (CyclicVariable.ofInt n).index ∧ (CyclicVariable.ofInt n).index ≤ 59) ∧
    (((CyclicVariable.ofInt n).add k).index
        = (((CyclicVariable.ofInt n).index + k) % 60 + 60) % 60 ∧
      0 ≤ ((CyclicVariable.ofInt n).add k).index ∧
      ((CyclicVariable.ofInt n).add k).index ≤ 59) ∧
    (((CyclicVariable.ofInt n).subInt k).index
        = (((CyclicVariable.ofInt n).index - k) % 60 + 60) % 60 ∧
      0 ≤ ((CyclicVariable.ofInt n).subInt k).index ∧
      ((CyclicVariable.ofInt n).subInt k).index ≤ 59) := by
  simp only [CyclicVariable.ofInt, CyclicVariable.add, CyclicVariable.subInt]
  refine ⟨?_, ⟨?_, ?_⟩, ⟨?_, ?_, ?_⟩, ⟨?_, ?_, ?_⟩⟩ <;> omega

/-- C8, counterexample: the source `calculate_equation_of_time` performs no
validation, so a call at the out-of-range day-of-year 0 returns the formula's
value instead of the `InvalidArgument` rejection the claim requires (the
spec-modelled checked variant errors there). -/
theorem C8_out_of_range_not_rejected :
    eotCall 0 = Except.ok (calculate_equation_of_time 0) ∧
    eotSpecChecked 0 = Except.error PyError.invalidArgument := by
  refine ⟨rfl, ?_⟩
  norm_num [eotSpecChecked]

/-- C8, amended: the equation-of-time function is total over all integer
day-of-year values (in particular over `[1, 366]`); an out-of-range
day-of-year is not rejected — every call returns the formula's value, which is
bounded by 18.9 minutes in absolute value and is the 365-periodic extension of
the in-range behaviour. -/
theorem C8_amended_total_periodic (d : ℤ) :
    eotCall d = Except.ok (calculate_equation_of_time d) ∧
    -18.9 ≤ calculate_equation_of_time d ∧ calculate_equation_of_time d ≤ 18.9 ∧
    calculate_equation_of_time (d + 365) = calculate_equation_of_time d :=
  ⟨rfl, (eot_range d).1, (eot_range d).2, eot_periodic_aux d⟩

/-- C9: `is_combining` returns true for exactly the six canonical Liu He
branch pairs — the branch-index pairs {0,1}, {2,11}, {3,10}, {4,9}, {5,8},
{6,7}, in either order — i.e. exactly when
`(self.branch_index + other.branch_index) % 12 == 1`, and false for every
other pair of coordinates. -/
theorem C9_six_harmonies_pairs (m n : ℤ) :
    (CyclicVariable.ofInt m).is_combining (CyclicVariable.ofInt n) = true ↔
      (((CyclicVariable.ofInt m).branch_index = 0 ∧ (CyclicVariable.ofInt n).branch_index = 1) ∨
       ((CyclicVariable.ofInt m).branch_index = 1 ∧ (CyclicVariable.ofInt n).branch_index = 0) ∨
       ((CyclicVariable.ofInt m).branch_index = 2 ∧ (CyclicVariable.ofInt n).branch_index = 11) ∨
       ((CyclicVariable.ofInt m).branch_index = 11 ∧ (CyclicVariable.ofInt n).branch_index = 2) ∨
       ((CyclicVariable.ofInt m).branch_index = 3 ∧ (CyclicVariable.ofInt n).branch_index = 10) ∨
       ((CyclicVariable.ofInt m).branch_index = 10 ∧ (CyclicVariable.ofInt n).branch_index = 3) ∨
       ((CyclicVariable.ofInt m).branch_index = 4 ∧ (CyclicVariable.ofInt n).branch_index = 9) ∨
       ((CyclicVariable.ofInt m).branch_index = 9 ∧ (CyclicVariable.ofInt n).branch_index = 4) ∨
       ((CyclicVariable.ofInt m).branch_index = 5 ∧ (CyclicVariable.ofInt n).branch_index = 8) ∨
       ((CyclicVariable.ofInt m).branch_index = 8 ∧ (CyclicVariable.ofInt n).branch_index = 5) ∨
       ((CyclicVariable.ofInt m).branch_index = 6 ∧ (CyclicVariable.ofInt n).branch_index = 7) ∨
       ((CyclicVariable.ofInt m).branch_index = 7 ∧ (CyclicVariable.ofInt n).branch_index = 6)) := by
  simp only [CyclicVariable.is_combining, CyclicVariable.branch_index, CyclicVariable.ofInt,
    beq_iff_eq]
  exact six_pairs _ _ (Int.emod_nonneg _ (by norm_num)) (Int.emod_lt_of_pos _ (by norm_num))
    (Int.emod_nonneg _ (by norm_num)) (Int.emod_lt_of_pos _ (by norm_num))

/-- C10: whenever `get_coordinates` returns for a valid timestamp, the month
pillar's index is `dt.month + 12 ∈ [13, 24]` (the raw civil month), and two
successful calls on the same timestamp that differ only in longitude or in
precision mode return identical month and year pillars. -/
theorem C10_month_year_pillars (dt : PyDateTime) (lon lon2 : ℝ) (pm pm2 : Bool) (p q : Pillars)
    (hv : ValidDT dt)
    (h : get_coordinates dt lon pm = Except.ok p)
    (h2 : get_coordinates dt lon2 pm2 = Except.ok q) :
    p.month.index = dt.month + 12 ∧ 13 ≤ p.month.index ∧ p.month.index ≤ 24 ∧
    p.month = q.month ∧ p.year = q.year := by
  have key : ∀ (lon3 : ℝ) (pm3 : Bool) (r : Pillars),
      get_coordinates dt lon3 pm3 = Except.ok r →
      r.month = CyclicVariable.ofInt (dt.month + 12) ∧
      r.year = CyclicVariable.ofInt ((dt.year - 4) % 60) := by
    intro lon3 pm3 r hr
    have hp : ∃ dp hs, r = mkPillars dt dp hs := by
      cases pm3 with
      | true =>
        rw [get_coordinates_precise] at hr
        exact ⟨_, _, (Except.ok.inj hr).symm⟩
      | false =>
        cases htz : dt.tzOffsetMinutes with
        | some o => simp [get_coordinates, htz] at hr
        | none =>
          rw [get_coordinates_basic dt lon3 htz] at hr
          exact ⟨_, _, (Except.ok.inj hr).symm⟩
    obtain ⟨dp, hs, rfl⟩ := hp
    exact ⟨mkPillars_month dt dp hs, mkPillars_year dt dp hs⟩
  obtain ⟨hm, hy⟩ := key lon pm p h
  obtain ⟨hm2, hy2⟩ := key lon2 pm2 q h2
  have hmr : 1 ≤ dt.month ∧ dt.month ≤ 12 := ⟨hv.2.2.1, hv.2.2.2.1⟩
  refine ⟨?_, ?_, ?_, by rw [hm, hm2], by rw [hy, hy2]⟩ <;>
    · rw [hm]
      simp only [CyclicVariable.ofInt]
      omega

/-- C10, witness: at `1900-01-04T12:00:00` (naive, a valid datetime), with one
call at longitude 0 and another at longitude 5, both in basic mode, the pillar
sets coincide and the month pillar is 13 = 1 + 12. -/
theorem C10_month_year_pillars_witness :
    (⟨⟨36⟩, ⟨13⟩, ⟨13⟩, ⟨6⟩⟩ : Pillars).month.index = noonJan4.month + 12 ∧
    13 ≤ (⟨⟨36⟩, ⟨13⟩, ⟨13⟩, ⟨6⟩⟩ : Pillars).month.index ∧
    (⟨⟨36⟩, ⟨13⟩, ⟨13⟩, ⟨6⟩⟩ : Pillars).month.index ≤ 24 ∧
    (⟨⟨36⟩, ⟨13⟩, ⟨13⟩, ⟨6⟩⟩ : Pillars).month = (⟨⟨36⟩, ⟨13⟩, ⟨13⟩, ⟨6⟩⟩ : Pillars).month ∧
    (⟨⟨36⟩, ⟨13⟩, ⟨13⟩, ⟨6⟩⟩ : Pillars).year = (⟨⟨36⟩, ⟨13⟩, ⟨13⟩, ⟨6⟩⟩ : Pillars).year :=
  C10_month_year_pillars noonJan4 0 5 false false ⟨⟨36⟩, ⟨13⟩, ⟨13⟩, ⟨6⟩⟩ ⟨⟨36⟩, ⟨13⟩, ⟨13⟩, ⟨6⟩⟩
    (by decide) (by decide) (by decide)
